import Mathlib

/-!
Shallow embedding of `logger.go` from getsentry/go-http-utils-logger:
an HTTP request-logging middleware.  Go machine integers are modelled as
`Int` (no overflow is relevant at the sizes involved), `time.Time` as a
record of epoch nanoseconds together with its CLF rendering (the only two
facets the code uses), `float64` arithmetic in `parseResponseTime` as
exact rational arithmetic, and Go's `panic` as `Option.none`.
-/

set_option autoImplicit false

namespace GoHttpLogger

/-! ## Data model -/

/-- Go `time.Time`, reduced to the two facets the logger uses: `ns` models the
instant (epoch nanoseconds, so `time.Time.Sub` is integer subtraction of
`ns`), and `clf` models the result of
`Format("02/Jan/2006:15:04:05 -0700")` on that instant. -/
structure GoTime where
  ns : Int
  clf : String
  deriving Repr, DecidableEq

/-- The parts of `*http.Request` read by `logger.go`: `Method`,
`RequestURI`, `Proto`, `RemoteAddr`, `URL.User` (with `none` for a nil
`*url.Userinfo` and `some name` for a user-info whose `Username()` is
`name`), and the `Referer()` / `UserAgent()` header accessors. -/
structure Request where
  method : String
  requestURI : String
  proto : String
  remoteAddr : String
  urlUser : Option String
  referer : String
  userAgent : String
  deriving Repr, DecidableEq

/-- The `responseLogger` struct: the wrapped `http.ResponseWriter` is kept
outside this record (threaded explicitly as an `Underlying` state), leaving
the `start`, `status` and `size` fields. -/
structure ResponseLogger where
  start : GoTime
  status : Int
  size : Int
  deriving Repr, DecidableEq

/-- Creation `&responseLogger{rw: res, start: time.Now()}` — `status` and `size`
start at Go's zero value `0`. -/
def newResponseLogger (start : GoTime) : ResponseLogger :=
  { start := start, status := 0, size := 0 }

/-- The underlying `http.ResponseWriter` capability, as a state machine
over an abstract state `σ`: `write` consumes a chunk and reports the count
actually written together with an error (`Option.some` models a non-nil Go
`error`); `flusher` is `some` exactly when the dynamic cast to
`http.Flusher` succeeds. -/
structure Underlying (σ : Type) where
  write : σ → List (Fin 256) → σ × Int × Option String
  writeHeader : σ → Int → σ
  flusher : Option (σ → σ)

/-- The `io.Writer` log sink: `write` appends a string and reports a count
and an error, which the middleware discards. -/
structure Sink (σw : Type) where
  write : σw → String → σw × Int × Option String

/-! ## Response Observer methods -/

/-- Method `responseLogger.Write`: default the status to 200 on first body write,
forward the chunk to the underlying writer, and add the count the
underlying writer reports (not the chunk length) to `size`.  Returns the
updated logger, the updated underlying-writer state, and the `(int, error)`
pair `Write` passes back to its caller. -/
def rlWrite {σ : Type} (U : Underlying σ) (rl : ResponseLogger) (s : σ)
    (bytes : List (Fin 256)) : ResponseLogger × σ × Int × Option String :=
  let rl1 := if rl.status = 0 then { rl with status := 200 } else rl
  let r := U.write s bytes
  ({ rl1 with size := rl1.size + r.2.1 }, r.1, r.2.1, r.2.2)

/-- Method `responseLogger.WriteHeader`: record the status and forward it. -/
def rlWriteHeader {σ : Type} (U : Underlying σ) (rl : ResponseLogger)
    (s : σ) (status : Int) : ResponseLogger × σ :=
  ({ rl with status := status }, U.writeHeader s status)

/-- Method `responseLogger.Flush`: flush only when the underlying writer supports
it; otherwise a no-op. -/
def rlFlush {σ : Type} (U : Underlying σ) (s : σ) : σ :=
  match U.flusher with
  | some f => f s
  | none => s

/-! ## Go library helpers: `strings.Join`, `net.SplitHostPort` -/

/-- Go `strings.Join(elems, sep)`. -/
def stringsJoin : List String → String → String
  | [], _ => ""
  | [x], _ => x
  | x :: xs, sep => x ++ sep ++ stringsJoin xs sep

/-- Go `fmt.Fprintln` writes its argument followed by a newline; this is the
text handed to the sink. -/
def fprintln (s : String) : String := s ++ "\n"

/-- Index of the last occurrence of `c` (Go's `last` helper inside
`net`), `-1` when absent. -/
def lastIndexChar (s : List Char) (c : Char) : Int :=
  match s with
  | [] => -1
  | x :: xs =>
    let r := lastIndexChar xs c
    if r ≥ 0 then r + 1 else if x = c then 0 else -1

/-- Index of the first occurrence of `c` (`byteIndex`), `-1` when
absent. -/
def indexChar (s : List Char) (c : Char) : Int :=
  match s with
  | [] => -1
  | x :: xs =>
    if x = c then 0 else
      let r := indexChar xs c
      if r ≥ 0 then r + 1 else -1

/-- The reasons `net.SplitHostPort` can fail (the `AddrError.Err`
strings, as an enumeration). -/
inductive AddrErr where
  | missingPort
  | tooManyColons
  | missingRBracketInAddr
  | unexpectedLBracket
  | unexpectedRBracket
  deriving Repr, DecidableEq

/-- Go `net.SplitHostPort(hostport)`, returning `(host, port, err)`; every
error path returns with `host = ""` and `port = ""` exactly as
`addrErr` does in the Go standard library. -/
def splitHostPort (hostport : String) : String × String × Option AddrErr :=
  let s := hostport.toList
  let i := lastIndexChar s ':'
  if i < 0 then ("", "", some AddrErr.missingPort)
  else
    let iN := i.toNat
    if s.head? = some '[' then
      let endIdx := indexChar s ']'
      if endIdx < 0 then ("", "", some AddrErr.missingRBracketInAddr)
      else
        let eN := endIdx.toNat
        if eN + 1 = s.length then ("", "", some AddrErr.missingPort)
        else if (eN + 1 : Int) = i then
          -- host = hostport[1:endIdx], then scan for stray brackets
          if indexChar (s.drop 1) '[' ≥ 0 then
            ("", "", some AddrErr.unexpectedLBracket)
          else if indexChar (s.drop (eN + 1)) ']' ≥ 0 then
            ("", "", some AddrErr.unexpectedRBracket)
          else
            (String.mk ((s.drop 1).take (eN - 1)), String.mk (s.drop (iN + 1)), none)
        else if s.get? (eN + 1) = some ':' then
          ("", "", some AddrErr.tooManyColons)
        else ("", "", some AddrErr.missingPort)
    else
      let host := s.take iN
      if indexChar host ':' ≥ 0 then ("", "", some AddrErr.tooManyColons)
      else if indexChar s '[' ≥ 0 then ("", "", some AddrErr.unexpectedLBracket)
      else if indexChar s ']' ≥ 0 then ("", "", some AddrErr.unexpectedRBracket)
      else (String.mk host, String.mk (s.drop (iN + 1)), none)

/-! ## Field extraction and response-time rendering -/

/-- Function `extractUsername`. -/
def extractUsername (req : Request) : String :=
  match req.urlUser with
  | none => "-"
  | some name => if name = "" then "-" else name

/-- Function `extractRemoteIP`: `net.SplitHostPort` with port and error ignored. -/
def extractRemoteIP (req : Request) : String :=
  (splitHostPort req.remoteAddr).1

/-- Go `strconv.Itoa` (on the `Int` model of Go's `int`). -/
def itoa (i : Int) : String := toString i

/-- Left-pad to three digits, as `%.3f` renders the fractional part. -/
def pad3 (n : Nat) : String :=
  if n < 10 then "00" ++ toString n
  else if n < 100 then "0" ++ toString n
  else toString n

/-- Go `fmt.Sprintf("%.3f", q)` on the exact-rational model of `float64`:
round the magnitude to the nearest thousandth and print sign, integer part
and three fractional digits. -/
def goFmtF3 (q : ℚ) : String :=
  let t : Int := round (|q| * 1000)
  (if q < 0 then "-" else "") ++ itoa (t / 1000) ++ "." ++ pad3 (t % 1000).toNat

/-- Go `time.Duration.Seconds()` for a duration of `d` nanoseconds. -/
def durSeconds (d : Int) : ℚ := (d : ℚ) / 1000000000

/-- Function `parseResponseTime(start)` evaluated when `time.Now()` is `now`:
`fmt.Sprintf("%.3f ms", time.Now().Sub(start).Seconds()/1e6)`. -/
def parseResponseTime (start now : GoTime) : String :=
  goFmtF3 (durSeconds (now.ns - start.ns) / 1000000) ++ " ms"

/-- Modelled from the spec: the response-time field as the spec words it,
"elapsed duration rendered in milliseconds with 3 decimal digits, followed
by a space and ms" — a duration of `d` nanoseconds is `d / 1e6`
milliseconds. -/
def specResponseTimeMs (start now : GoTime) : String :=
  goFmtF3 ((now.ns - start.ns : ℚ) / 1000000) ++ " ms"

/-! ## Format selection -/

/-- The five `Type` enumeration values (`iota` starting at 0); the Go
`Type` itself is an `int`, modelled as `Int`. -/
def CombineLoggerType : Int := 0

/-- Constant `CommonLoggerType`. -/
def CommonLoggerType : Int := 1

/-- Constant `DevLoggerType`. -/
def DevLoggerType : Int := 2

/-- Constant `ShortLoggerType`. -/
def ShortLoggerType : Int := 3

/-- Constant `TinyLoggerType`. -/
def TinyLoggerType : Int := 4

/-- The `CombineLoggerType` log function: the line `fmt.Fprintln` writes
to the sink.  The `now` argument models the `time.Now()` call inside
`parseResponseTime` (unused by this format). -/
def combineLine (_now : GoTime) (rl : ResponseLogger) (req : Request) : String :=
  fprintln (stringsJoin
    [ extractRemoteIP req,
      "-",
      extractUsername req,
      "[" ++ rl.start.clf ++ "]",
      "\"" ++ req.method,
      req.requestURI,
      req.proto ++ "\"",
      itoa rl.status,
      itoa rl.size,
      "\"" ++ req.referer ++ "\"",
      "\"" ++ req.userAgent ++ "\"" ] " ")

/-- The `CommonLoggerType` log function. -/
def commonLine (_now : GoTime) (rl : ResponseLogger) (req : Request) : String :=
  fprintln (stringsJoin
    [ extractRemoteIP req,
      "-",
      extractUsername req,
      "[" ++ rl.start.clf ++ "]",
      "\"" ++ req.method,
      req.requestURI,
      req.proto ++ "\"",
      itoa rl.status,
      itoa rl.size ] " ")

/-- The `DevLoggerType` log function. -/
def devLine (now : GoTime) (rl : ResponseLogger) (req : Request) : String :=
  fprintln (stringsJoin
    [ req.method,
      req.requestURI,
      itoa rl.status,
      parseResponseTime rl.start now,
      "-",
      itoa rl.size ] " ")

/-- The `ShortLoggerType` log function. -/
def shortLine (now : GoTime) (rl : ResponseLogger) (req : Request) : String :=
  fprintln (stringsJoin
    [ extractRemoteIP req,
      extractUsername req,
      req.method,
      req.requestURI,
      req.proto,
      itoa rl.status,
      itoa rl.size,
      "-",
      parseResponseTime rl.start now ] " ")

/-- The `TinyLoggerType` log function. -/
def tinyLine (now : GoTime) (rl : ResponseLogger) (req : Request) : String :=
  fprintln (stringsJoin
    [ req.method,
      req.requestURI,
      itoa rl.status,
      itoa rl.size,
      "-",
      parseResponseTime rl.start now ] " ")

/-- Function `logFnForType`: the switch over the five `Type` values; the trailing
`panic("Should never get here.")` is modelled by `none`. -/
def logFnForType (t : Int) :
    Option (GoTime → ResponseLogger → Request → String) :=
  if t = CombineLoggerType then some combineLine
  else if t = CommonLoggerType then some commonLine
  else if t = DevLoggerType then some devLine
  else if t = ShortLoggerType then some shortLine
  else if t = TinyLoggerType then some tinyLine
  else none

/-- The `loggerHandler` value built by `Handler`: the inner handler, sink
and writer state live outside the record; what `Handler` computes at
construction time is the log function and whether a metrics client is
present (`stats != nil`). -/
structure LoggerHandler where
  logFn : GoTime → ResponseLogger → Request → String
  statsConfigured : Bool

/-- Function `Handler(h, writer, t, stats)`: construction resolves `logFnForType t`
once; a panic there (modelled by `none`) aborts construction. -/
def Handler (t : Int) (statsConfigured : Bool) : Option LoggerHandler :=
  (logFnForType t).map fun f => { logFn := f, statsConfigured := statsConfigured }

/-! ## The middleware request flow -/

/-- One interaction of the inner handler with its `http.ResponseWriter`
(the Response Observer): a body write, an explicit header write, or a
flush. -/
inductive HAction where
  | write (bytes : List (Fin 256))
  | writeHeader (status : Int)
  | flush
  deriving Repr

/-- Run the inner handler's interactions through the Observer's methods,
threading the Observer and the underlying writer state. -/
def runHandler {σ : Type} (U : Underlying σ) :
    ResponseLogger → σ → List HAction → ResponseLogger × σ
  | rl, s, [] => (rl, s)
  | rl, s, HAction.write b :: rest =>
    let r := rlWrite U rl s b
    runHandler U r.1 r.2.1 rest
  | rl, s, HAction.writeHeader st :: rest =>
    let r := rlWriteHeader U rl s st
    runHandler U r.1 r.2 rest
  | rl, s, HAction.flush :: rest =>
    runHandler U rl (rlFlush U s) rest

/-- One statsd measurement, as emitted by `loggerHandler.ServeHTTP`:
`Incr`, `Gauge` (value `float64(rl.size)`, exact here) or `Timing` (a
`time.Duration` in nanoseconds), each with its tags and rate. -/
inductive MetricEvent where
  | incr (name : String) (tags : List String) (rate : ℚ)
  | gauge (name : String) (value : ℚ) (tags : List String) (rate : ℚ)
  | timing (name : String) (value : Int) (tags : List String) (rate : ℚ)
  deriving Repr, DecidableEq

/-- Everything observable about one `ServeHTTP` call: the final Observer,
the final underlying-writer and sink states, the line passed to the sink,
and the metrics emitted. -/
structure ServeResult (σ σw : Type) where
  rl : ResponseLogger
  uw : σ
  sink : σw
  logLine : String
  metrics : List MetricEvent

/-- Method `loggerHandler.ServeHTTP`: create a fresh Observer started at `start`,
run the inner handler (`acts`), format the line with `logFn` (whose
internal `time.Now()` is `nowLog`), write it to the sink discarding the
`(int, error)` result, then, when a metrics client is configured, emit the
three measurements (the `time.Now()` of the `Timing` call is
`nowStats`). -/
def serveHTTP {σ σw : Type} (U : Underlying σ) (S : Sink σw)
    (logFn : GoTime → ResponseLogger → Request → String)
    (statsConfigured : Bool) (start nowLog nowStats : GoTime)
    (req : Request) (acts : List HAction) (s : σ) (sw : σw) :
    ServeResult σ σw :=
  let p := runHandler U (newResponseLogger start) s acts
  let line := logFn nowLog p.1 req
  let swp := S.write sw line
  let metrics :=
    if statsConfigured then
      let tags := ["status:" ++ itoa p.1.status, "method:" ++ req.method]
      [ MetricEvent.incr "http.response" tags 1,
        MetricEvent.gauge "http.size" (p.1.size : ℚ) tags 1,
        MetricEvent.timing "http.response" (nowStats.ns - p.1.start.ns) tags 1 ]
    else []
  { rl := p.1, uw := p.2, sink := swp.1, logLine := line, metrics := metrics }

/-! ## Concrete instances used in worked examples -/

/-- The spec's worked example: `GET /ping HTTP/1.1` from
`127.0.0.1:5000`, no URL user-info, empty referrer and user agent. -/
def pingReq : Request :=
  { method := "GET"
    requestURI := "/ping"
    proto := "HTTP/1.1"
    remoteAddr := "127.0.0.1:5000"
    urlUser := none
    referer := ""
    userAgent := "" }

/-- A trivial underlying writer over the unit state: it reports every
chunk fully written with no error and supports no flushing. -/
def unitUnderlying : Underlying Unit :=
  { write := fun s b => (s, ((b.length : Nat) : Int), none)
    writeHeader := fun s _ => s
    flusher := none }

/-- A trivial sink over the unit state reporting success. -/
def unitSink : Sink Unit :=
  { write := fun s line => (s, ((line.length : Nat) : Int), none) }

/-- The per-call counts the underlying writer reports across a sequence of
`Write` calls (an observer of the same run `runHandler` performs on
write-only action lists). -/
def reportedCounts {σ : Type} (U : Underlying σ) :
    ResponseLogger → σ → List (List (Fin 256)) → List Int
  | _, _, [] => []
  | rl, s, b :: bs =>
    let r := rlWrite U rl s b
    r.2.2.1 :: reportedCounts U r.1 r.2.1 bs

/-! ## Helper lemmas -/

/-- A body write adds exactly the underlying writer's reported count to
`size` and touches nothing else of the size accounting. -/
theorem rlWrite_size {σ : Type} (U : Underlying σ) (rl : ResponseLogger)
    (s : σ) (b : List (Fin 256)) :
    (rlWrite U rl s b).1.size = rl.size + (U.write s b).2.1 := by
  unfold rlWrite
  split <;> rfl

/-- The count `Write` hands back to its caller is the underlying writer's
reported count. -/
theorem rlWrite_count {σ : Type} (U : Underlying σ) (rl : ResponseLogger)
    (s : σ) (b : List (Fin 256)) :
    (rlWrite U rl s b).2.2.1 = (U.write s b).2.1 := rfl

/-- Evaluation shape of `goFmtF3` at a nonnegative argument whose rounded
thousandths are known. -/
theorem goFmtF3_eval (q : ℚ) (t : Int) (hq : ¬q < 0)
    (ht : round (|q| * 1000) = t) :
    goFmtF3 q = itoa (t / 1000) ++ "." ++ pad3 (t % 1000).toNat := by
  simp only [goFmtF3, ht, if_neg hq]
  rfl

/-- Evaluation shape of `parseResponseTime` for a nonnegative elapsed
duration with known rounded value. -/
theorem parseResponseTime_eval (start now : GoTime) (t : Int)
    (hq : ¬durSeconds (now.ns - start.ns) / 1000000 < 0)
    (ht : round (|durSeconds (now.ns - start.ns) / 1000000| * 1000) = t) :
    parseResponseTime start now =
      itoa (t / 1000) ++ "." ++ pad3 (t % 1000).toNat ++ " ms" := by
  unfold parseResponseTime
  rw [goFmtF3_eval _ t hq ht]

/-- No Observer method modifies the `start` timestamp. -/
theorem runHandler_start {σ : Type} (U : Underlying σ) (acts : List HAction)
    (rl : ResponseLogger) (s : σ) :
    (runHandler U rl s acts).1.start = rl.start := by
  induction acts generalizing rl s with
  | nil => rfl
  | cons a rest ih =>
    cases a with
    | write b =>
      rw [runHandler, ih]
      unfold rlWrite
      split <;> rfl
    | writeHeader st =>
      rw [runHandler, ih]
      rfl
    | flush => rw [runHandler, ih]

/-- A handler that never calls `Write` or `WriteHeader` (it may flush)
leaves the Observer exactly as created. -/
theorem runHandler_rl_of_flush_only {σ : Type} (U : Underlying σ)
    (acts : List HAction) (rl : ResponseLogger) (s : σ)
    (h : ∀ a ∈ acts, a = HAction.flush) :
    (runHandler U rl s acts).1 = rl := by
  induction acts generalizing s with
  | nil => rfl
  | cons a rest ih =>
    have ha := h a (List.mem_cons_self a rest)
    subst ha
    rw [runHandler]
    exact ih (rlFlush U s) fun a ha => h a (List.mem_cons_of_mem _ ha)

/-! ## Claims -/

/-- C1: the claim reads the response-time field of Dev/Short/Tiny lines as
the elapsed duration in milliseconds with three decimals.  The code
divides the elapsed seconds by `1e6` before labelling the result ms, so at
an elapsed time of exactly 2 seconds it prints `0.000 ms` where the
claimed rendering is `2000.000 ms`: the code contradicts the spec's (and
its own comments') intent. -/
theorem C1_response_time_unit_bug :
    parseResponseTime ⟨0, "TS"⟩ ⟨2000000000, "TS"⟩ = "0.000 ms" ∧
    specResponseTimeMs ⟨0, "TS"⟩ ⟨2000000000, "TS"⟩ = "2000.000 ms" ∧
    parseResponseTime ⟨0, "TS"⟩ ⟨2000000000, "TS"⟩ ≠
      specResponseTimeMs ⟨0, "TS"⟩ ⟨2000000000, "TS"⟩ := by
  have e1 : parseResponseTime ⟨0, "TS"⟩ ⟨2000000000, "TS"⟩ = "0.000 ms" := by
    rw [parseResponseTime_eval ⟨0, "TS"⟩ ⟨2000000000, "TS"⟩ 0
      (by norm_num [durSeconds])
      (by rw [abs_of_nonneg (by norm_num [durSeconds])]
          norm_num [durSeconds, round_eq])]
    rfl
  have e2 : specResponseTimeMs ⟨0, "TS"⟩ ⟨2000000000, "TS"⟩ = "2000.000 ms" := by
    unfold specResponseTimeMs
    rw [goFmtF3_eval _ 2000000 (by norm_num)
      (by rw [abs_of_nonneg (by norm_num)]
          norm_num [round_eq])]
    rfl
  refine ⟨e1, e2, ?_⟩
  rw [e1, e2]
  decide

/-- C2: every format selector outside the five defined enumeration values
makes `Handler` abort construction (the modelled `panic` in
`logFnForType`), never a silent fallback. -/
theorem C2_invalid_format_aborts_construction (t : Int) (stats : Bool)
    (h : t ≠ CombineLoggerType ∧ t ≠ CommonLoggerType ∧ t ≠ DevLoggerType ∧
      t ≠ ShortLoggerType ∧ t ≠ TinyLoggerType) :
    Handler t stats = none := by
  obtain ⟨h0, h1, h2, h3, h4⟩ := h
  simp [Handler, logFnForType, h0, h1, h2, h3, h4]

/-- C2 witness: the out-of-range selector 5 is rejected. -/
theorem C2_invalid_format_aborts_construction_witness :
    ((5 : Int) ≠ CombineLoggerType ∧ (5 : Int) ≠ CommonLoggerType ∧
      (5 : Int) ≠ DevLoggerType ∧ (5 : Int) ≠ ShortLoggerType ∧
      (5 : Int) ≠ TinyLoggerType) ∧ Handler 5 true = none :=
  ⟨by decide, C2_invalid_format_aborts_construction 5 true (by decide)⟩

/-- C3: across any sequence of `Write` calls, the Observer's byte count
grows by exactly the sum of the counts the underlying writer reports —
and each single call adds the underlying writer's return value, not the
length of the chunk passed in, so short writes are accounted exactly. -/
theorem C3_size_is_sum_of_reported_counts {σ : Type} (U : Underlying σ)
    (rl : ResponseLogger) (s : σ) (chunks : List (List (Fin 256))) :
    (runHandler U rl s (chunks.map HAction.write)).1.size =
      rl.size + (reportedCounts U rl s chunks).sum ∧
    ∀ (rl : ResponseLogger) (s : σ) (b : List (Fin 256)),
      (rlWrite U rl s b).1.size = rl.size + (U.write s b).2.1 := by
  refine ⟨?_, fun rl s b => rlWrite_size U rl s b⟩
  induction chunks generalizing rl s with
  | nil => simp [runHandler, reportedCounts]
  | cons b bs ih =>
    rw [List.map_cons, runHandler, reportedCounts, List.sum_cons, ih,
      rlWrite_size, rlWrite_count]
    ring

/-- C4: a body write before any recorded status records 200; after
`WriteHeader(404)` a body write leaves the recorded status at 404. -/
theorem C4_status_defaulting {σ : Type} (U : Underlying σ)
    (rl rl2 : ResponseLogger) (s s2 s3 : σ) (b b2 : List (Fin 256))
    (h : rl.status = 0) :
    (rlWrite U rl s b).1.status = 200 ∧
    (rlWrite U (rlWriteHeader U rl2 s2 404).1 s3 b2).1.status = 404 := by
  constructor
  · simp [rlWrite, h]
  · simp [rlWrite, rlWriteHeader]

/-- C4 witness: a fresh Observer (status 0) records 200 on first write,
and 404 survives a subsequent write. -/
theorem C4_status_defaulting_witness :
    (newResponseLogger ⟨0, "TS"⟩).status = 0 ∧
    ((rlWrite unitUnderlying (newResponseLogger ⟨0, "TS"⟩) ()
        [(72 : Fin 256)]).1.status = 200 ∧
      (rlWrite unitUnderlying
        (rlWriteHeader unitUnderlying (newResponseLogger ⟨0, "TS"⟩) () 404).1
        () [(72 : Fin 256)]).1.status = 404) :=
  ⟨rfl, C4_status_defaulting unitUnderlying (newResponseLogger ⟨0, "TS"⟩)
    (newResponseLogger ⟨0, "TS"⟩) () () () [(72 : Fin 256)] [(72 : Fin 256)]
    rfl⟩

/-- C5: nothing the middleware produces — the final Observer, the bytes
delivered through the underlying writer, the log line, the metrics —
depends on the sink: `ServeHTTP` discards the sink write's `(int, error)`
result, so a failing sink leaves the served response untouched and the
call still completes. -/
theorem C5_sink_error_not_propagated {σ σw σw2 : Type} (U : Underlying σ)
    (S : Sink σw) (S2 : Sink σw2)
    (logFn : GoTime → ResponseLogger → Request → String)
    (stats : Bool) (start nowLog nowStats : GoTime) (req : Request)
    (acts : List HAction) (s : σ) (sw : σw) (sw2 : σw2) :
    (serveHTTP U S logFn stats start nowLog nowStats req acts s sw).rl =
      (serveHTTP U S2 logFn stats start nowLog nowStats req acts s sw2).rl ∧
    (serveHTTP U S logFn stats start nowLog nowStats req acts s sw).uw =
      (serveHTTP U S2 logFn stats start nowLog nowStats req acts s sw2).uw ∧
    (serveHTTP U S logFn stats start nowLog nowStats req acts s sw).logLine =
      (serveHTTP U S2 logFn stats start nowLog nowStats req acts s sw2).logLine ∧
    (serveHTTP U S logFn stats start nowLog nowStats req acts s sw).metrics =
      (serveHTTP U S2 logFn stats start nowLog nowStats req acts s sw2).metrics :=
  ⟨rfl, rfl, rfl, rfl⟩

/-- C6: for the worked example (`GET /ping HTTP/1.1`, status 200, size 12,
peer `127.0.0.1:5000`, no URL user, empty referrer and user agent) the
Combined line is `127.0.0.1 - - [<timestamp>] "GET /ping HTTP/1.1" 200 12
"" ""` followed by a newline, for every timestamp rendering `ts`. -/
theorem C6_combined_line_ping (ts : String) (n : Int) (nowLog : GoTime) :
    combineLine nowLog { start := ⟨n, ts⟩, status := 200, size := 12 } pingReq =
      "127.0.0.1 - - [" ++ ts ++
        "] \"GET /ping HTTP/1.1\" 200 12 \"\" \"\"\n" := by
  have h1 : extractRemoteIP pingReq = "127.0.0.1" := by decide
  have h2 : extractUsername pingReq = "-" := rfl
  have h3 : itoa 200 = "200" := rfl
  have h4 : itoa 12 = "12" := rfl
  simp only [combineLine, stringsJoin, fprintln, h1, h2]
  rw [String.ext_iff]
  simp [pingReq, h3, h4, String.data_append]

/-- C7: for the same request the Tiny line is exactly the six fields
`GET /ping 200 12 - <elapsed> ms` joined by single spaces and terminated
by a newline, where the elapsed field is `parseResponseTime`, which always
ends in a space and `ms`. -/
theorem C7_tiny_line_ping (st nw : GoTime) :
    tinyLine nw { start := st, status := 200, size := 12 } pingReq =
      "GET /ping 200 12 - " ++ parseResponseTime st nw ++ "\n" ∧
    ∃ v, parseResponseTime st nw = v ++ " ms" := by
  constructor
  · have h3 : itoa 200 = "200" := rfl
    have h4 : itoa 12 = "12" := rfl
    simp only [tinyLine, stringsJoin, fprintln]
    rw [String.ext_iff]
    simp [pingReq, h3, h4, String.data_append]
  · exact ⟨goFmtF3 (durSeconds (nw.ns - st.ns) / 1000000), rfl⟩

/-- C8: whenever `net.SplitHostPort` fails on the peer address (for
example on the empty string), the extracted remote host is `""` — no
error escapes — and the middleware still formats a complete,
newline-terminated log line. -/
theorem C8_unparsable_remote_addr (addr : String)
    (h : (splitHostPort addr).2.2.isSome = true) :
    (∀ req : Request, req.remoteAddr = addr → extractRemoteIP req = "") ∧
    ∀ (now : GoTime) (rl : ResponseLogger) (req : Request),
      ∃ body, combineLine now rl req = body ++ "\n" := by
  constructor
  · intro req hr
    unfold extractRemoteIP
    rw [hr]
    revert h
    simp only [splitHostPort]
    split_ifs <;> simp
  · intro now rl req
    exact ⟨_, rfl⟩

/-- C8 witness: the empty peer address fails to parse and extraction
yields the empty host. -/
theorem C8_unparsable_remote_addr_witness :
    (splitHostPort "").2.2.isSome = true ∧
    extractRemoteIP { pingReq with remoteAddr := "" } = "" :=
  ⟨rfl, (C8_unparsable_remote_addr "" rfl).1 _ rfl⟩

/-- C9: with a metrics client configured, each request emits exactly the
three measurements, once each — the counter `http.response`, the gauge
`http.size` carrying the response byte count, and the timing
`http.response` carrying the elapsed duration — all tagged
`status:<final status>` and `method:<request method>`, for every inner
handler behaviour (zero-byte responses included). -/
theorem C9_metrics_emission {σ σw : Type} (U : Underlying σ) (S : Sink σw)
    (logFn : GoTime → ResponseLogger → Request → String)
    (start nowLog nowStats : GoTime) (req : Request) (acts : List HAction)
    (s : σ) (sw : σw) :
    (serveHTTP U S logFn true start nowLog nowStats req acts s sw).metrics =
      [ MetricEvent.incr "http.response"
          ["status:" ++
              itoa (runHandler U (newResponseLogger start) s acts).1.status,
            "method:" ++ req.method] 1,
        MetricEvent.gauge "http.size"
          ((runHandler U (newResponseLogger start) s acts).1.size : ℚ)
          ["status:" ++
              itoa (runHandler U (newResponseLogger start) s acts).1.status,
            "method:" ++ req.method] 1,
        MetricEvent.timing "http.response" (nowStats.ns - start.ns)
          ["status:" ++
              itoa (runHandler U (newResponseLogger start) s acts).1.status,
            "method:" ++ req.method] 1 ] := by
  have hs : (runHandler U (newResponseLogger start) s acts).1.start = start :=
    runHandler_start U acts (newResponseLogger start) s
  simp only [serveHTTP, if_true, hs]

/-- C10: for every request, every format resolved by `logFnForType`, and
every inner handler that returns without ever calling `Write` or
`WriteHeader` (flush-only interactions included), the logged status and
size are 0 — the 200 default is applied only on a body write — so the
line is the format applied to the still-fresh Observer, the metrics tag is
`status:0` and the gauge is 0; the five per-format conjuncts render the
fresh Observer's line with literal `0` status and size fields. -/
theorem C10_untouched_observer_logs_zero {σ σw : Type} (U : Underlying σ)
    (S : Sink σw) (t : Int)
    (f : GoTime → ResponseLogger → Request → String)
    (_hf : logFnForType t = some f) (start nowLog nowStats : GoTime)
    (req : Request) (acts : List HAction)
    (hacts : ∀ a ∈ acts, a = HAction.flush) (s : σ) (sw : σw) :
    (serveHTTP U S f true start nowLog nowStats req acts s sw).rl.status = 0 ∧
    (serveHTTP U S f true start nowLog nowStats req acts s sw).rl.size = 0 ∧
    (serveHTTP U S f true start nowLog nowStats req acts s sw).logLine =
      f nowLog (newResponseLogger start) req ∧
    (serveHTTP U S f true start nowLog nowStats req acts s sw).metrics =
      [ MetricEvent.incr "http.response"
          ["status:0", "method:" ++ req.method] 1,
        MetricEvent.gauge "http.size" 0
          ["status:0", "method:" ++ req.method] 1,
        MetricEvent.timing "http.response" (nowStats.ns - start.ns)
          ["status:0", "method:" ++ req.method] 1 ] ∧
    combineLine nowLog (newResponseLogger start) req =
      extractRemoteIP req ++ " - " ++ extractUsername req ++ " [" ++
        start.clf ++ "] \"" ++ req.method ++ " " ++ req.requestURI ++ " " ++
        req.proto ++ "\" 0 0 \"" ++ req.referer ++ "\" \"" ++
        req.userAgent ++ "\"\n" ∧
    commonLine nowLog (newResponseLogger start) req =
      extractRemoteIP req ++ " - " ++ extractUsername req ++ " [" ++
        start.clf ++ "] \"" ++ req.method ++ " " ++ req.requestURI ++ " " ++
        req.proto ++ "\" 0 0\n" ∧
    devLine nowLog (newResponseLogger start) req =
      req.method ++ " " ++ req.requestURI ++ " 0 " ++
        parseResponseTime start nowLog ++ " - 0\n" ∧
    shortLine nowLog (newResponseLogger start) req =
      extractRemoteIP req ++ " " ++ extractUsername req ++ " " ++
        req.method ++ " " ++ req.requestURI ++ " " ++ req.proto ++
        " 0 0 - " ++ parseResponseTime start nowLog ++ "\n" ∧
    tinyLine nowLog (newResponseLogger start) req =
      req.method ++ " " ++ req.requestURI ++ " 0 0 - " ++
        parseResponseTime start nowLog ++ "\n" := by
  have hrl : (runHandler U (newResponseLogger start) s acts).1 =
      newResponseLogger start :=
    runHandler_rl_of_flush_only U acts (newResponseLogger start) s hacts
  have h0 : itoa 0 = "0" := rfl
  have hst : "status:" ++ itoa (newResponseLogger start).status =
      "status:0" := rfl
  refine ⟨?_, ?_, ?_, ?_, ?_, ?_, ?_, ?_, ?_⟩
  · simp only [serveHTTP, hrl]
    rfl
  · simp only [serveHTTP, hrl]
    rfl
  · simp only [serveHTTP, hrl]
  · simp only [serveHTTP, if_true, hrl, hst]
    norm_num [newResponseLogger]
  · simp only [combineLine, stringsJoin, fprintln, newResponseLogger, h0]
    rw [String.ext_iff]
    simp [String.data_append]
  · simp only [commonLine, stringsJoin, fprintln, newResponseLogger, h0]
    rw [String.ext_iff]
    simp [String.data_append]
  · simp only [devLine, stringsJoin, fprintln, newResponseLogger, h0]
    rw [String.ext_iff]
    simp [String.data_append]
  · simp only [shortLine, stringsJoin, fprintln, newResponseLogger, h0]
    rw [String.ext_iff]
    simp [String.data_append]
  · simp only [tinyLine, stringsJoin, fprintln, newResponseLogger, h0]
    rw [String.ext_iff]
    simp [String.data_append]

/-- C10 witness: a flush-only handler under the Tiny format (selector 4)
on the worked-example request logs status 0. -/
theorem C10_untouched_observer_logs_zero_witness :
    (logFnForType TinyLoggerType = some tinyLine ∧
      ∀ a ∈ [HAction.flush], a = HAction.flush) ∧
    (serveHTTP unitUnderlying unitSink tinyLine true ⟨0, "TS"⟩ ⟨5, "TS"⟩
      ⟨9, "TS"⟩ pingReq [HAction.flush] () ()).rl.status = 0 :=
  ⟨⟨rfl, fun a ha => by simpa using ha⟩,
    (C10_untouched_observer_logs_zero unitUnderlying unitSink TinyLoggerType
      tinyLine rfl ⟨0, "TS"⟩ ⟨5, "TS"⟩ ⟨9, "TS"⟩ pingReq [HAction.flush]
      (fun a ha => by simpa using ha) () ()).1⟩

end GoHttpLogger
